import Mathlib

/-!
Shallow embedding of the server actions in `src/app/lib/actions.ts`
(invoice create/update/delete and an authentication wrapper).

Modelling conventions:

* Form data (`FormData`) is a list of text entries; `getField` models
  `formData.get(k)`, returning the first value for the key or `none`
  (JavaScript `null`) when the key is absent.
* JavaScript numbers are binary64 floats. A finite double is represented
  by its exact rational value; `toDouble` rounds a rational to the nearest
  binary64 (round to nearest, ties to even) and `dmul` is binary64
  multiplication. The model covers the normal finite range, which is the
  range reachable in this file; `toNumber` covers the plain decimal
  literals that occur as form values (sign, digits, one optional decimal
  point, surrounding whitespace), mapping everything else to NaN,
  and `Number(null) = 0`.
* Validation follows zod v3 semantics for the schema
  `FormSchema.omit(\x7b id: true, date: true \x7d)`: each field is checked
  independently and `safeParse` collects the per-field error messages,
  as `error.flatten().fieldErrors` exposes them. `invalid_type_error`
  fires exactly on invalid-type issues (a `null` input); other failures
  get the check-specific or default zod message.
* Database calls, cache revalidation and redirects are recorded as an
  `Effect` trace. The boolean `dbOk` stands for whether the single SQL
  round trip succeeds; `today` stands for the value of
  `new Date().toISOString().split(\x27T\x27)[0]` at call time. A `redirect`
  call never returns, so an action that reaches it yields no `State`
  (modelled as `none` in the returned `Option State`).
-/

set_option linter.unusedVariables false

namespace Invoices

/-! ### Binary64 arithmetic on exact rational values -/

/-- Fuel-driven base-2 logarithm on naturals; `log2fuel n n` is exact for
every `n ≥ 1` since the number of halvings is at most `n`. -/
def log2fuel : ℕ → ℕ → ℕ
  | 0, _ => 0
  | f + 1, n => if n < 2 then 0 else log2fuel f (n / 2) + 1

/-- Base-2 logarithm, rounded down; `natLog2 n = k` with `2^k ≤ n < 2^(k+1)`
for `n ≥ 1`. -/
def natLog2 (n : ℕ) : ℕ := log2fuel n n

/-- Multiply a rational by `2^k` for an integer `k` (possibly negative). -/
def mulPow2 (q : ℚ) (k : ℤ) : ℚ :=
  if 0 ≤ k then mkRat (q.num * 2 ^ k.toNat) q.den else mkRat q.num (q.den * 2 ^ (-k).toNat)

/-- Round a nonnegative rational to the nearest natural, ties to even. -/
def rhe (q : ℚ) : ℕ :=
  let f := q.num.toNat / q.den
  let r := q.num.toNat % q.den
  if 2 * r < q.den then f
  else if q.den < 2 * r then f + 1
  else if f % 2 = 0 then f else f + 1

/-- Test `q < 2^k` without rational arithmetic, by cross-multiplying. -/
def ltPow2 (q : ℚ) (k : ℤ) : Bool :=
  if 0 ≤ k then q.num < 2 ^ k.toNat * (q.den : ℤ) else q.num * 2 ^ (-k).toNat < (q.den : ℤ)

/-- Binade exponent of a positive rational: the `e` with `2^e ≤ q < 2^(e+1)`.
With `a = natLog2 q.num.toNat` and `b = natLog2 q.den` the value `q` lies in
`(2^(a-b-1), 2^(a-b+1))`, so one comparison settles the exponent. -/
def binExp (q : ℚ) : ℤ :=
  let d : ℤ := (natLog2 q.num.toNat : ℤ) - (natLog2 q.den : ℤ)
  if ltPow2 q d then d - 1 else d

/-- Round a positive rational to the nearest binary64 value: scale into the
53-bit significand range, round ties to even, scale back. -/
def roundPos (q : ℚ) : ℚ :=
  mulPow2 (mkRat (rhe (mulPow2 q (52 - binExp q))) 1) (binExp q - 52)

/-- Nearest binary64 value to a rational (normal finite range). -/
def toDouble (q : ℚ) : ℚ :=
  if 0 < q.num then roundPos q else if q.num < 0 then -roundPos (-q) else 0

/-- Product of two rationals written with `mkRat` so that it unfolds during
kernel evaluation; `ratMul_eq_mul` below proves it equal to `Rat.mul`. -/
def ratMul (a b : ℚ) : ℚ := mkRat (a.num * b.num) (a.den * b.den)

/-- IEEE-754 binary64 multiplication of two exactly represented doubles:
the exact rational product, rounded back to a double. -/
def dmul (x y : ℚ) : ℚ := toDouble (ratMul x y)

/-! ### JavaScript Number() coercion of form values -/

/-- Result of JavaScript `Number()` coercion: NaN or a finite double,
represented by its exact rational value. -/
inductive JSNumber where
  | nan : JSNumber
  | fin : ℚ → JSNumber
deriving DecidableEq

/-- Value of a list of decimal digit characters. -/
def digitsToNat (l : List Char) : ℕ := l.foldl (fun n c => 10 * n + (c.toNat - 48)) 0

/-- Drop trailing whitespace. -/
def stripEndWs (l : List Char) : List Char :=
  (l.reverse.dropWhile Char.isWhitespace).reverse

/-- Exact rational value of a signed decimal literal with integer digits
`ip` and fraction digits `fp`. -/
def decToRat (sgn : ℤ) (ip fp : List Char) : ℚ :=
  mkRat (sgn * (digitsToNat ip * 10 ^ fp.length + digitsToNat fp)) (10 ^ fp.length)

/-- JavaScript `Number()` on a form value: `null` coerces to 0, the empty or
all-whitespace string to 0, a plain signed decimal literal to the nearest
double of its value, anything else to NaN (exotic numeric forms such as hex
or exponent literals do not occur as amounts in this development). -/
def toNumber : Option String → JSNumber
  | none => .fin 0
  | some s =>
    match stripEndWs (s.toList.dropWhile Char.isWhitespace) with
    | [] => .fin 0
    | c :: t =>
      let p : ℤ × List Char :=
        if c = '-' then (-1, t) else if c = '+' then (1, t) else (1, c :: t)
      let ip := p.2.takeWhile Char.isDigit
      match p.2.drop ip.length with
      | [] => if ip.isEmpty then .nan else .fin (toDouble (decToRat p.1 ip []))
      | '.' :: fp =>
        if fp.all Char.isDigit && !(ip.isEmpty && fp.isEmpty) then
          .fin (toDouble (decToRat p.1 ip fp))
        else .nan
      | _ => .nan

/-! ### The zod schema `FormSchema.omit(\x7b id, date \x7d)` -/

/-- Field check for `z.string(\x7b invalid_type_error: ... \x7d)`: a missing
value (`null`) is an invalid type and gets the custom message; any present
string — including the empty string — passes. -/
def parseCustomerId : Option String → Except (List String) String
  | none => .error ["Please select a customer"]
  | some s => .ok s

/-- Field check for `z.coerce.number().gt(0, \x7b message: ... \x7d)`: the raw
value is coerced with `Number()`; NaN is an invalid type and gets the zod v3
default message, otherwise the `gt(0)` check applies with its custom message. -/
def parseAmount (v : Option String) : Except (List String) ℚ :=
  match toNumber v with
  | .nan => .error ["Expected number, received nan"]
  | .fin q => if 0 < q then .ok q else .error ["Please enter an amount greater than $0."]

/-- Field check for `z.enum([\x27paid\x27, \x27pending\x27],
\x7b invalid_type_error: ... \x7d)`: a missing value (`null`) is an invalid
type and gets the custom message; a present string outside the enum gets the
zod v3 default invalid-enum-value message. -/
def parseStatus : Option String → Except (List String) String
  | none => .error ["Please select an invoice status"]
  | some s =>
    if s = "paid" || s = "pending" then .ok s
    else .error ["Invalid enum value. Expected \x27paid\x27 | \x27pending\x27, received \x27" ++ s ++ "\x27"]

/-- Per-field error lists as exposed by `error.flatten().fieldErrors`:
a field is present exactly when it produced at least one issue. -/
structure FieldErrors where
  customerId : Option (List String)
  amount : Option (List String)
  status : Option (List String)
deriving DecidableEq

/-- Validated output of the schema. -/
structure InvoiceFields where
  customerId : String
  amount : ℚ
  status : String
deriving DecidableEq

/-- Result of `safeParse`. -/
inductive ParseResult where
  | ok : InvoiceFields → ParseResult
  | err : FieldErrors → ParseResult
deriving DecidableEq

/-- Error messages of one field check, as an optional list. -/
def errsOf {α : Type} : Except (List String) α → Option (List String)
  | .error m => some m
  | .ok _ => none

/-- The `safeParse` of `FormSchema.omit(\x7b id: true, date: true \x7d)`
applied to the three extracted form values: every field is checked and the
failing fields report their messages, or all three values are returned. -/
def FormSchemaOmitIdDate (customerId amount status : Option String) : ParseResult :=
  match parseCustomerId customerId, parseAmount amount, parseStatus status with
  | .ok c, .ok a, .ok s => .ok ⟨c, a, s⟩
  | rc, ra, rs => .err ⟨errsOf rc, errsOf ra, errsOf rs⟩

/-- Source line `const CreateInvoice = FormSchema.omit(\x7b id: true, date: true \x7d)`. -/
def CreateInvoice := FormSchemaOmitIdDate

/-- Source line `const UpdateInvoice = FormSchema.omit(\x7b id: true, date: true \x7d)`. -/
def UpdateInvoice := FormSchemaOmitIdDate

/-! ### The actions and their observable effects -/

/-- Form data: ordered text entries; `getField` is `formData.get`. -/
abbrev FormData := List (String × String)

/-- First value bound to a key, or `none` for JavaScript `null`. -/
def getField (fd : FormData) (k : String) : Option String :=
  (fd.find? (fun p => p.1 = k)).map (fun p => p.2)

/-- The `State` result type of the actions. -/
structure State where
  errors : Option FieldErrors
  message : Option String
deriving DecidableEq

/-- Bound values of the INSERT statement issued by `createInvoice`. -/
structure InsertValues where
  customer_id : String
  amount : ℚ
  status : String
  date : String
deriving DecidableEq

/-- Bound SET values of the UPDATE statement issued by `updateInvoice`. -/
structure UpdateValues where
  customer_id : String
  amount : ℚ
  status : String
deriving DecidableEq

/-- Observable side effects of one action invocation, in order. -/
inductive Effect where
  | insertInvoice : InsertValues → Effect
  | updateRow : String → UpdateValues → Effect
  | deleteRow : String → Effect
  | revalidate : String → Effect
  | redirectTo : String → Effect
deriving DecidableEq

/-- Recognizer for deletion statements in a trace. -/
def isDeleteEffect : Effect → Bool
  | .deleteRow _ => true
  | _ => false

/-- The `createInvoice` server action. Validates the three extracted fields,
and on success computes `amountInCents = amount * 100` (binary64) and
`date = today`, issues the INSERT, and on database success revalidates and
redirects (so no `State` is returned). -/
def createInvoice (prevState : State) (formData : FormData) (today : String) (dbOk : Bool) :
    Option State × List Effect :=
  match CreateInvoice (getField formData "customerId") (getField formData "amount")
      (getField formData "status") with
  | .err e => (some ⟨some e, some "Missing Fields. Failed to create invoices."⟩, [])
  | .ok fields =>
    let amountInCents := dmul fields.amount 100
    let stmt : InsertValues := ⟨fields.customerId, amountInCents, fields.status, today⟩
    if dbOk then
      (none, [.insertInvoice stmt, .revalidate "/dashboard/invoices",
              .redirectTo "/dashboard/invoices"])
    else
      (some ⟨none, some "Database Error: Failed to create invoice"⟩, [.insertInvoice stmt])

/-- The `updateInvoice` server action: same validation as `createInvoice`,
then an UPDATE of the row with the given id, setting only customer_id,
amount and status. -/
def updateInvoice (id : String) (prevState : State) (formData : FormData) (dbOk : Bool) :
    Option State × List Effect :=
  match UpdateInvoice (getField formData "customerId") (getField formData "amount")
      (getField formData "status") with
  | .err e => (some ⟨some e, some "Missing Fields. Failed to update invoice"⟩, [])
  | .ok fields =>
    let stmt : UpdateValues := ⟨fields.customerId, dmul fields.amount 100, fields.status⟩
    if dbOk then
      (none, [.updateRow id stmt, .revalidate "/dashboard/invoices",
              .redirectTo "/dashboard/invoices"])
    else
      (some ⟨none, some "Database Error: Failed to update database"⟩, [.updateRow id stmt])

/-- The `deleteInvoice` server action: one DELETE scoped to the id, no
try/catch. The boolean in the result is true when a database error
propagates uncaught; the revalidation only runs when the DELETE returned. -/
def deleteInvoice (id : String) (dbOk : Bool) : Bool × List Effect :=
  if dbOk then (false, [.deleteRow id, .revalidate "/dashboard/invoices"])
  else (true, [.deleteRow id])

/-- Outcome of the `signIn(\x27credentials\x27, formData)` collaborator call:
success, a typed `AuthError` with its `type` discriminator, or any other
thrown error. -/
inductive SignInOutcome where
  | success : SignInOutcome
  | authError : String → SignInOutcome
  | failure : String → SignInOutcome
deriving DecidableEq

/-- The `authenticate` server action: returns nothing on success, maps the
two `AuthError` kinds to user-facing strings, and re-throws (models as
`Except.error`) anything that is not an `AuthError`. -/
def authenticate (prevState : Option String) (outcome : SignInOutcome) :
    Except String (Option String) :=
  match outcome with
  | .success => .ok none
  | .authError t =>
    .ok (some (if t = "CredentialsSignin" then "Invalid credentials." else "Something went wrong."))
  | .failure e => .error e

/-! ### Relational semantics of the issued statements -/

/-- A persisted invoice row. -/
structure InvoiceRow where
  id : String
  customer_id : String
  amount : ℚ
  status : String
  date : String
deriving DecidableEq

/-- Semantics of `UPDATE invoices SET customer_id = _, amount = _,
status = _ WHERE id = key` over a table. -/
def runUpdateRow (key : String) (v : UpdateValues) (db : List InvoiceRow) : List InvoiceRow :=
  db.map fun r =>
    if r.id = key then
      { r with customer_id := v.customer_id, amount := v.amount, status := v.status }
    else r

/-- Field errors carried by an action result, if any. -/
def resultErrors (r : Option State × List Effect) : Option FieldErrors :=
  r.1.bind State.errors

/-! ### Basic bridging lemmas -/

theorem ratMul_eq_mul (a b : ℚ) : ratMul a b = a * b := by
  rw [ratMul, Rat.mul_def, Rat.normalize_eq_mkRat]

theorem errsOf_ok {α : Type} (a : α) : errsOf (Except.ok a : Except (List String) α) = none := rfl

theorem errsOf_error {α : Type} (m : List String) :
    errsOf (Except.error m : Except (List String) α) = some m := rfl

theorem schema_err_of_cid {cid amt st : Option String} {m : List String}
    (h : parseCustomerId cid = .error m) :
    FormSchemaOmitIdDate cid amt st =
      .err ⟨some m, errsOf (parseAmount amt), errsOf (parseStatus st)⟩ := by
  cases ha : parseAmount amt <;> cases hs : parseStatus st <;>
    simp [FormSchemaOmitIdDate, h, ha, hs, errsOf]

theorem schema_err_of_amount {cid amt st : Option String} {m : List String}
    (h : parseAmount amt = .error m) :
    FormSchemaOmitIdDate cid amt st =
      .err ⟨errsOf (parseCustomerId cid), some m, errsOf (parseStatus st)⟩ := by
  cases hc : parseCustomerId cid <;> cases hs : parseStatus st <;>
    simp [FormSchemaOmitIdDate, hc, h, hs, errsOf]

theorem schema_err_of_status {cid amt st : Option String} {m : List String}
    (h : parseStatus st = .error m) :
    FormSchemaOmitIdDate cid amt st =
      .err ⟨errsOf (parseCustomerId cid), errsOf (parseAmount amt), some m⟩ := by
  cases hc : parseCustomerId cid <;> cases ha : parseAmount amt <;>
    simp [FormSchemaOmitIdDate, hc, ha, h, errsOf]

theorem schema_err_elim {cid amt st : Option String} {e : FieldErrors}
    (h : FormSchemaOmitIdDate cid amt st = .err e) :
    e.customerId = errsOf (parseCustomerId cid) ∧ e.amount = errsOf (parseAmount amt) ∧
      e.status = errsOf (parseStatus st) := by
  cases hc : parseCustomerId cid <;> cases ha : parseAmount amt <;> cases hs : parseStatus st <;>
    simp_all [FormSchemaOmitIdDate, errsOf] <;> subst h <;> exact ⟨rfl, rfl, rfl⟩

theorem createInvoice_eq_err {prev : State} {fd : FormData} {today : String} {dbOk : Bool}
    {e : FieldErrors}
    (h : FormSchemaOmitIdDate (getField fd "customerId") (getField fd "amount")
        (getField fd "status") = .err e) :
    createInvoice prev fd today dbOk =
      (some ⟨some e, some "Missing Fields. Failed to create invoices."⟩, []) := by
  simp [createInvoice, CreateInvoice, h]

theorem createInvoice_ok_true {prev : State} {fd : FormData} {today : String} {f : InvoiceFields}
    (h : FormSchemaOmitIdDate (getField fd "customerId") (getField fd "amount")
        (getField fd "status") = .ok f) :
    createInvoice prev fd today true =
      (none, [.insertInvoice ⟨f.customerId, dmul f.amount 100, f.status, today⟩,
              .revalidate "/dashboard/invoices", .redirectTo "/dashboard/invoices"]) := by
  simp [createInvoice, CreateInvoice, h]

theorem createInvoice_ok_false {prev : State} {fd : FormData} {today : String} {f : InvoiceFields}
    (h : FormSchemaOmitIdDate (getField fd "customerId") (getField fd "amount")
        (getField fd "status") = .ok f) :
    createInvoice prev fd today false =
      (some ⟨none, some "Database Error: Failed to create invoice"⟩,
       [.insertInvoice ⟨f.customerId, dmul f.amount 100, f.status, today⟩]) := by
  simp [createInvoice, CreateInvoice, h]

theorem updateInvoice_eq_err {id : String} {prev : State} {fd : FormData} {dbOk : Bool}
    {e : FieldErrors}
    (h : FormSchemaOmitIdDate (getField fd "customerId") (getField fd "amount")
        (getField fd "status") = .err e) :
    updateInvoice id prev fd dbOk =
      (some ⟨some e, some "Missing Fields. Failed to update invoice"⟩, []) := by
  simp [updateInvoice, UpdateInvoice, h]

theorem updateInvoice_ok_true {id : String} {prev : State} {fd : FormData} {f : InvoiceFields}
    (h : FormSchemaOmitIdDate (getField fd "customerId") (getField fd "amount")
        (getField fd "status") = .ok f) :
    updateInvoice id prev fd true =
      (none, [.updateRow id ⟨f.customerId, dmul f.amount 100, f.status⟩,
              .revalidate "/dashboard/invoices", .redirectTo "/dashboard/invoices"]) := by
  simp [updateInvoice, UpdateInvoice, h]

theorem updateInvoice_ok_false {id : String} {prev : State} {fd : FormData} {f : InvoiceFields}
    (h : FormSchemaOmitIdDate (getField fd "customerId") (getField fd "amount")
        (getField fd "status") = .ok f) :
    updateInvoice id prev fd false =
      (some ⟨none, some "Database Error: Failed to update database"⟩,
       [.updateRow id ⟨f.customerId, dmul f.amount 100, f.status⟩]) := by
  simp [updateInvoice, UpdateInvoice, h]

theorem resultErrors_create_err {prev : State} {fd : FormData} {today : String} {dbOk : Bool}
    {e : FieldErrors} (h : resultErrors (createInvoice prev fd today dbOk) = some e) :
    FormSchemaOmitIdDate (getField fd "customerId") (getField fd "amount")
      (getField fd "status") = .err e := by
  cases hp : FormSchemaOmitIdDate (getField fd "customerId") (getField fd "amount")
      (getField fd "status") with
  | ok f =>
    exfalso
    cases dbOk
    · rw [createInvoice_ok_false hp] at h
      simp [resultErrors] at h
    · rw [createInvoice_ok_true hp] at h
      simp [resultErrors] at h
  | err e2 =>
    rw [createInvoice_eq_err hp] at h
    obtain rfl : e2 = e := by simpa [resultErrors] using h
    rfl

/-! ### Claim theorems -/

/-- C1 (amended): for every raw form input whose amount field coerces to a
number less than or equal to 0, `createInvoice` and `updateInvoice` return a
validation failure whose `errors.amount` is exactly the custom
greater-than-zero message together with the generic top-level message, and
perform no persistence call, no cache invalidation and no redirect; a
non-numeric amount (coercing to NaN) is likewise rejected with no effects,
but its `errors.amount` carries the zod default invalid-type message instead
of the custom one. -/
theorem c1_amount_validation (id today : String) (prev : State) (fd : FormData) (dbOk : Bool) :
    (∀ q : ℚ, toNumber (getField fd "amount") = .fin q → q ≤ 0 →
      ∃ e : FieldErrors, e.amount = some ["Please enter an amount greater than $0."] ∧
        createInvoice prev fd today dbOk =
          (some ⟨some e, some "Missing Fields. Failed to create invoices."⟩, []) ∧
        updateInvoice id prev fd dbOk =
          (some ⟨some e, some "Missing Fields. Failed to update invoice"⟩, [])) ∧
    (toNumber (getField fd "amount") = .nan →
      ∃ e : FieldErrors, e.amount = some ["Expected number, received nan"] ∧
        createInvoice prev fd today dbOk =
          (some ⟨some e, some "Missing Fields. Failed to create invoices."⟩, []) ∧
        updateInvoice id prev fd dbOk =
          (some ⟨some e, some "Missing Fields. Failed to update invoice"⟩, [])) := by
  constructor
  · intro q hq hle
    have hpa : parseAmount (getField fd "amount") =
        .error ["Please enter an amount greater than $0."] := by
      simp [parseAmount, hq, not_lt.mpr hle]
    exact ⟨_, rfl, createInvoice_eq_err (schema_err_of_amount hpa),
      updateInvoice_eq_err (schema_err_of_amount hpa)⟩
  · intro hq
    have hpa : parseAmount (getField fd "amount") =
        .error ["Expected number, received nan"] := by
      simp [parseAmount, hq]
    exact ⟨_, rfl, createInvoice_eq_err (schema_err_of_amount hpa),
      updateInvoice_eq_err (schema_err_of_amount hpa)⟩

/-- C1 witness: Scenario B. With amount "0" both actions reject with the
custom amount message and an empty effect trace. -/
theorem c1_witness :
    ∃ e : FieldErrors, e.amount = some ["Please enter an amount greater than $0."] ∧
      createInvoice ⟨none, none⟩
          [("customerId", "c1"), ("amount", "0"), ("status", "pending")] "2026-10-12" true =
        (some ⟨some e, some "Missing Fields. Failed to create invoices."⟩, []) ∧
      updateInvoice "inv-1" ⟨none, none⟩
          [("customerId", "c1"), ("amount", "0"), ("status", "pending")] true =
        (some ⟨some e, some "Missing Fields. Failed to update invoice"⟩, []) :=
  (c1_amount_validation "inv-1" "2026-10-12" ⟨none, none⟩
      [("customerId", "c1"), ("amount", "0"), ("status", "pending")] true).1 0 (by decide)
    (le_refl 0)

/-- C1 counterexample: with the non-numeric amount "abc" the actions do
reject and persist nothing, but `errors.amount` is the zod default
invalid-type message, not the custom greater-than-zero message the claim
requires. -/
theorem c1_counterexample :
    toNumber (some "abc") = .nan ∧
    createInvoice ⟨none, none⟩
        [("customerId", "c1"), ("amount", "abc"), ("status", "pending")] "2026-10-12" true =
      (some ⟨some ⟨none, some ["Expected number, received nan"], none⟩,
             some "Missing Fields. Failed to create invoices."⟩, []) ∧
    ¬ "Please enter an amount greater than $0." ∈ ["Expected number, received nan"] := by
  decide

/-- C2 (amended): for every input that passes validation, the amount
persisted by `createInvoice` and `updateInvoice` is the binary64 product of
the coerced amount with 100 — the code applies no explicit rounding. For the
scenario inputs this is exact: "250.00" persists 25000 and "99.50" persists
9950. (Not every two-decimal amount is exact; see the counterexample.) -/
theorem c2_amount_persisted (id today : String) (prev : State) (fd : FormData) (dbOk : Bool) :
    (∀ f : InvoiceFields,
      FormSchemaOmitIdDate (getField fd "customerId") (getField fd "amount")
          (getField fd "status") = .ok f →
      (createInvoice prev fd today dbOk).2.head? =
        some (.insertInvoice ⟨f.customerId, dmul f.amount 100, f.status, today⟩) ∧
      (updateInvoice id prev fd dbOk).2.head? =
        some (.updateRow id ⟨f.customerId, dmul f.amount 100, f.status⟩)) ∧
    toNumber (some "250.00") = .fin 250 ∧ dmul 250 100 = 25000 ∧
    toNumber (some "99.50") = .fin (mkRat 199 2) ∧ dmul (mkRat 199 2) 100 = 9950 := by
  refine ⟨?_, by decide, by decide, by decide, by decide⟩
  intro f hf
  cases dbOk
  · rw [createInvoice_ok_false hf, updateInvoice_ok_false hf]
    exact ⟨rfl, rfl⟩
  · rw [createInvoice_ok_true hf, updateInvoice_ok_true hf]
    exact ⟨rfl, rfl⟩

/-- C2 witness: Scenario C. With amount "99.50" the statement issued first
by each action carries the binary64 product, which is exactly 9950. -/
theorem c2_witness :
    (createInvoice ⟨none, none⟩
        [("customerId", "c2"), ("amount", "99.50"), ("status", "paid")]
        "2026-10-12" true).2.head? =
      some (.insertInvoice ⟨"c2", dmul (mkRat 199 2) 100, "paid", "2026-10-12"⟩) ∧
    (updateInvoice "inv-42" ⟨none, none⟩
        [("customerId", "c2"), ("amount", "99.50"), ("status", "paid")] true).2.head? =
      some (.updateRow "inv-42" ⟨"c2", dmul (mkRat 199 2) 100, "paid"⟩) :=
  (c2_amount_persisted "inv-42" "2026-10-12" ⟨none, none⟩
      [("customerId", "c2"), ("amount", "99.50"), ("status", "paid")] true).1
    ⟨"c2", mkRat 199 2, "paid"⟩ (by decide)

/-- C2 counterexample: the two-decimal amount "1.15" coerces to the double
5179139571476070/2^52 and the code persists its binary64 product with 100,
which is 8092405580431359/2^46, not the claimed round(amount times 100)
= 115; so a two-decimal input does suffer floating rounding loss. -/
theorem c2_counterexample :
    toNumber (some "1.15") = .fin (mkRat 5179139571476070 (2 ^ 52)) ∧
    (createInvoice ⟨none, none⟩
        [("customerId", "c1"), ("amount", "1.15"), ("status", "pending")]
        "2026-10-12" true).2 =
      [.insertInvoice ⟨"c1", mkRat 8092405580431359 (2 ^ 46), "pending", "2026-10-12"⟩,
       .revalidate "/dashboard/invoices", .redirectTo "/dashboard/invoices"] ∧
    rhe (ratMul (mkRat 5179139571476070 (2 ^ 52)) 100) = 115 ∧
    mkRat 8092405580431359 (2 ^ 46) ≠ 115 := by
  decide

/-- C3 (amended): the customerId message is produced when the field is
absent from the form data (extracted as null): then both actions reject with
`errors.customerId` equal to the custom message and no effects. A customerId
that is present as any string — including the empty string — passes the
customerId check, because the schema has no non-empty constraint. -/
theorem c3_customerId_validation (id today : String) (prev : State) (fd : FormData)
    (dbOk : Bool) :
    (getField fd "customerId" = none →
      ∃ e : FieldErrors, e.customerId = some ["Please select a customer"] ∧
        createInvoice prev fd today dbOk =
          (some ⟨some e, some "Missing Fields. Failed to create invoices."⟩, []) ∧
        updateInvoice id prev fd dbOk =
          (some ⟨some e, some "Missing Fields. Failed to update invoice"⟩, [])) ∧
    (∀ s : String, getField fd "customerId" = some s →
      parseCustomerId (getField fd "customerId") = .ok s) := by
  constructor
  · intro h
    have hc : parseCustomerId (getField fd "customerId") =
        .error ["Please select a customer"] := by
      rw [h]; rfl
    exact ⟨_, rfl, createInvoice_eq_err (schema_err_of_cid hc),
      updateInvoice_eq_err (schema_err_of_cid hc)⟩
  · intro s h
    rw [h]; rfl

/-- C3 witness: a form with no customerId entry is rejected by both actions
with the custom message and no effects. -/
theorem c3_witness :
    ∃ e : FieldErrors, e.customerId = some ["Please select a customer"] ∧
      createInvoice ⟨none, none⟩ [("amount", "5"), ("status", "paid")] "2026-10-12" true =
        (some ⟨some e, some "Missing Fields. Failed to create invoices."⟩, []) ∧
      updateInvoice "inv-1" ⟨none, none⟩ [("amount", "5"), ("status", "paid")] true =
        (some ⟨some e, some "Missing Fields. Failed to update invoice"⟩, []) :=
  (c3_customerId_validation "inv-1" "2026-10-12" ⟨none, none⟩
      [("amount", "5"), ("status", "paid")] true).1 rfl

/-- C3 counterexample: an empty-string customerId is not rejected — both
actions accept the input, persist a row with customer reference "" and go on
to revalidate and redirect, contradicting the claimed validation failure. -/
theorem c3_counterexample :
    createInvoice ⟨none, none⟩
        [("customerId", ""), ("amount", "5"), ("status", "paid")] "2026-10-12" true =
      (none, [.insertInvoice ⟨"", 500, "paid", "2026-10-12"⟩,
              .revalidate "/dashboard/invoices", .redirectTo "/dashboard/invoices"]) ∧
    updateInvoice "inv-1" ⟨none, none⟩
        [("customerId", ""), ("amount", "5"), ("status", "paid")] true =
      (none, [.updateRow "inv-1" ⟨"", 500, "paid"⟩,
              .revalidate "/dashboard/invoices", .redirectTo "/dashboard/invoices"]) := by
  decide

/-- C4: for every input accepted by validation, the date bound by the INSERT
statement of `createInvoice` equals the current day (`today`, the value of
the system clock at call time, in ISO date-only form); and the whole action
depends only on the customerId, amount and status entries of the form data,
so any date-like or id-like entry present in the input map is ignored. -/
theorem c4_date_assigned (prev : State) (fd fd2 : FormData) (today : String) (dbOk : Bool) :
    (∀ (v : InsertValues) (rest : List Effect),
      (createInvoice prev fd today dbOk).2 = .insertInvoice v :: rest → v.date = today) ∧
    (getField fd "customerId" = getField fd2 "customerId" →
      getField fd "amount" = getField fd2 "amount" →
      getField fd "status" = getField fd2 "status" →
      createInvoice prev fd today dbOk = createInvoice prev fd2 today dbOk) := by
  constructor
  · intro v rest h
    cases hp : FormSchemaOmitIdDate (getField fd "customerId") (getField fd "amount")
        (getField fd "status") with
    | err e =>
      rw [createInvoice_eq_err hp] at h
      cases h
    | ok f =>
      cases dbOk
      · rw [createInvoice_ok_false hp] at h
        injection h with h1 h2
        injection h1 with h3
        rw [← h3]
      · rw [createInvoice_ok_true hp] at h
        injection h with h1 h2
        injection h1 with h3
        rw [← h3]
  · intro h1 h2 h3
    simp only [createInvoice]
    rw [h1, h2, h3]

/-- C4 witness: with a valid form the inserted date is the call-time day,
and adding date and id entries to the form data changes nothing. -/
theorem c4_witness :
    (⟨"c1", (25000 : ℚ), "pending", "2026-10-12"⟩ : InsertValues).date = "2026-10-12" ∧
    createInvoice ⟨none, none⟩
        [("customerId", "c1"), ("amount", "250.00"), ("status", "pending")] "2026-10-12" true =
      createInvoice ⟨none, none⟩
        [("customerId", "c1"), ("amount", "250.00"), ("status", "pending"),
         ("date", "1999-01-01"), ("id", "inv-777")] "2026-10-12" true :=
  ⟨(c4_date_assigned ⟨none, none⟩
        [("customerId", "c1"), ("amount", "250.00"), ("status", "pending")]
        [("customerId", "c1"), ("amount", "250.00"), ("status", "pending"),
         ("date", "1999-01-01"), ("id", "inv-777")] "2026-10-12" true).1
      ⟨"c1", 25000, "pending", "2026-10-12"⟩
      [.revalidate "/dashboard/invoices", .redirectTo "/dashboard/invoices"] (by decide),
   (c4_date_assigned ⟨none, none⟩
        [("customerId", "c1"), ("amount", "250.00"), ("status", "pending")]
        [("customerId", "c1"), ("amount", "250.00"), ("status", "pending"),
         ("date", "1999-01-01"), ("id", "inv-777")] "2026-10-12" true).2
      (by decide) (by decide) (by decide)⟩

/-- C5: for every id and validated input, the statement `updateInvoice`
issues is an UPDATE of the row with that id setting only customer_id,
amount and status; running it over any table leaves every row id and date
unchanged and leaves rows with a different id entirely unchanged. -/
theorem c5_update_frame (id : String) (prev : State) (fd : FormData) (dbOk : Bool) :
    ∀ f : InvoiceFields,
      FormSchemaOmitIdDate (getField fd "customerId") (getField fd "amount")
          (getField fd "status") = .ok f →
      ((updateInvoice id prev fd dbOk).2.head? =
        some (.updateRow id ⟨f.customerId, dmul f.amount 100, f.status⟩)) ∧
      ∀ db : List InvoiceRow,
        List.Forall₂ (fun r r2 : InvoiceRow =>
            r2.id = r.id ∧ r2.date = r.date ∧ (r.id ≠ id → r2 = r))
          db (runUpdateRow id ⟨f.customerId, dmul f.amount 100, f.status⟩ db) := by
  intro f hf
  constructor
  · cases dbOk
    · rw [updateInvoice_ok_false hf]
      rfl
    · rw [updateInvoice_ok_true hf]
      rfl
  · intro db
    induction db with
    | nil => exact List.Forall₂.nil
    | cons r t ih =>
      have hstep : runUpdateRow id ⟨f.customerId, dmul f.amount 100, f.status⟩ (r :: t) =
          (if r.id = id then
            { r with customer_id := f.customerId, amount := dmul f.amount 100,
                     status := f.status }
          else r) :: runUpdateRow id ⟨f.customerId, dmul f.amount 100, f.status⟩ t := rfl
      rw [hstep]
      refine List.Forall₂.cons ?_ ih
      by_cases hr : r.id = id
      · rw [if_pos hr]
        exact ⟨rfl, rfl, fun h => absurd hr h⟩
      · rw [if_neg hr]
        exact ⟨rfl, rfl, fun _ => rfl⟩

/-- C5 witness: Scenario C against a two-row table — the matched row keeps
its id and date, the other row is untouched. -/
theorem c5_witness :
    ((updateInvoice "inv-42" ⟨none, none⟩
        [("customerId", "c2"), ("amount", "99.50"), ("status", "paid")] true).2.head? =
      some (.updateRow "inv-42" ⟨"c2", dmul (mkRat 199 2) 100, "paid"⟩)) ∧
    List.Forall₂ (fun r r2 : InvoiceRow =>
        r2.id = r.id ∧ r2.date = r.date ∧ (r.id ≠ "inv-42" → r2 = r))
      [⟨"inv-42", "c9", 100, "pending", "2020-02-02"⟩,
       ⟨"inv-7", "c3", 200, "paid", "2021-03-03"⟩]
      (runUpdateRow "inv-42" ⟨"c2", dmul (mkRat 199 2) 100, "paid"⟩
        [⟨"inv-42", "c9", 100, "pending", "2020-02-02"⟩,
         ⟨"inv-7", "c3", 200, "paid", "2021-03-03"⟩]) :=
  ⟨((c5_update_frame "inv-42" ⟨none, none⟩
        [("customerId", "c2"), ("amount", "99.50"), ("status", "paid")] true)
      ⟨"c2", mkRat 199 2, "paid"⟩ (by decide)).1,
   ((c5_update_frame "inv-42" ⟨none, none⟩
        [("customerId", "c2"), ("amount", "99.50"), ("status", "paid")] true)
      ⟨"c2", mkRat 199 2, "paid"⟩ (by decide)).2
     [⟨"inv-42", "c9", 100, "pending", "2020-02-02"⟩,
      ⟨"inv-7", "c3", 200, "paid", "2021-03-03"⟩]⟩

/-- C6: when the database round trip fails, `createInvoice` returns only the
message "Database Error: Failed to create invoice" with no per-field errors,
`updateInvoice` returns only "Database Error: Failed to update database",
and in both cases the trace contains just the attempted statement — no cache
invalidation and no redirect. -/
theorem c6_db_error (id today : String) (prev : State) (fd : FormData) :
    ∀ f : InvoiceFields,
      FormSchemaOmitIdDate (getField fd "customerId") (getField fd "amount")
          (getField fd "status") = .ok f →
      createInvoice prev fd today false =
        (some ⟨none, some "Database Error: Failed to create invoice"⟩,
         [.insertInvoice ⟨f.customerId, dmul f.amount 100, f.status, today⟩]) ∧
      updateInvoice id prev fd false =
        (some ⟨none, some "Database Error: Failed to update database"⟩,
         [.updateRow id ⟨f.customerId, dmul f.amount 100, f.status⟩]) :=
  fun _ hf => ⟨createInvoice_ok_false hf, updateInvoice_ok_false hf⟩

/-- C6 witness: a concrete valid input with a failing database call. -/
theorem c6_witness :
    createInvoice ⟨none, none⟩
        [("customerId", "c1"), ("amount", "250.00"), ("status", "pending")] "2026-10-12" false =
      (some ⟨none, some "Database Error: Failed to create invoice"⟩,
       [.insertInvoice ⟨"c1", dmul 250 100, "pending", "2026-10-12"⟩]) ∧
    updateInvoice "inv-42" ⟨none, none⟩
        [("customerId", "c1"), ("amount", "250.00"), ("status", "pending")] false =
      (some ⟨none, some "Database Error: Failed to update database"⟩,
       [.updateRow "inv-42" ⟨"c1", dmul 250 100, "pending"⟩]) :=
  c6_db_error "inv-42" "2026-10-12" ⟨none, none⟩
    [("customerId", "c1"), ("amount", "250.00"), ("status", "pending")]
    ⟨"c1", 250, "pending"⟩ (by decide)

/-- C7: `deleteInvoice` issues exactly one deletion statement, scoped to the
given id and first in the trace; the error propagates uncaught exactly when
the database call fails; and the revalidation of the listing view is in the
trace if and only if the deletion call did not raise, coming after the
deletion. -/
theorem c7_delete (id : String) (dbOk : Bool) :
    ((deleteInvoice id dbOk).2.filter isDeleteEffect = [.deleteRow id]) ∧
    ((deleteInvoice id dbOk).2.head? = some (.deleteRow id)) ∧
    ((deleteInvoice id dbOk).1 = true ↔ dbOk = false) ∧
    (Effect.revalidate "/dashboard/invoices" ∈ (deleteInvoice id dbOk).2 ↔ dbOk = true) ∧
    (dbOk = true →
      (deleteInvoice id dbOk).2 = [.deleteRow id, .revalidate "/dashboard/invoices"]) := by
  cases dbOk <;> simp [deleteInvoice, isDeleteEffect, List.filter]

/-- C7 witness: Scenario E shape — deleting "inv-99" with a successful call
deletes then revalidates. -/
theorem c7_witness :
    (deleteInvoice "inv-99" true).2 =
      [.deleteRow "inv-99", .revalidate "/dashboard/invoices"] :=
  (c7_delete "inv-99" true).2.2.2.2 rfl

/-- C8: `authenticate` returns nothing on success, the literal string
"Invalid credentials." on an authentication-layer error of kind
"CredentialsSignin", the literal string "Something went wrong." on any other
authentication-layer error, and re-raises any error that is not an
authentication-layer error. -/
theorem c8_authenticate (prev : Option String) (t e : String) :
    authenticate prev .success = .ok none ∧
    authenticate prev (.authError "CredentialsSignin") = .ok (some "Invalid credentials.") ∧
    (t ≠ "CredentialsSignin" →
      authenticate prev (.authError t) = .ok (some "Something went wrong.")) ∧
    authenticate prev (.failure e) = .error e := by
  refine ⟨rfl, by simp [authenticate], ?_, rfl⟩
  intro h
  simp [authenticate, h]

/-- C8 witness: a non-credentials authentication error maps to the generic
message. -/
theorem c8_witness :
    authenticate none (.authError "AccessDenied") = .ok (some "Something went wrong.") :=
  (c8_authenticate none "AccessDenied" "boom").2.2.1 (by decide)

/-- C9: `CreateInvoice` and `UpdateInvoice` are the same schema, so for
every raw form input the two actions make the same accept or reject
decision and on rejection carry identical per-field error lists, differing
only in their top-level summary messages. -/
theorem c9_schemas_equal (id today : String) (prev : State) (fd : FormData) (dbOk : Bool) :
    CreateInvoice = UpdateInvoice ∧
    resultErrors (createInvoice prev fd today dbOk) =
      resultErrors (updateInvoice id prev fd dbOk) ∧
    (∀ e : FieldErrors, resultErrors (createInvoice prev fd today dbOk) = some e →
      createInvoice prev fd today dbOk =
        (some ⟨some e, some "Missing Fields. Failed to create invoices."⟩, []) ∧
      updateInvoice id prev fd dbOk =
        (some ⟨some e, some "Missing Fields. Failed to update invoice"⟩, [])) := by
  refine ⟨rfl, ?_, ?_⟩
  · cases hp : FormSchemaOmitIdDate (getField fd "customerId") (getField fd "amount")
        (getField fd "status") with
    | err e =>
      rw [createInvoice_eq_err hp, updateInvoice_eq_err hp]
      rfl
    | ok f =>
      cases dbOk
      · rw [createInvoice_ok_false hp, updateInvoice_ok_false hp]
        rfl
      · rw [createInvoice_ok_true hp, updateInvoice_ok_true hp]
        rfl
  · intro e he
    have hp := resultErrors_create_err he
    exact ⟨createInvoice_eq_err hp, updateInvoice_eq_err hp⟩

/-- C9 witness: the empty form is rejected by both actions with the same
three per-field messages and the two distinct summary messages. -/
theorem c9_witness :
    createInvoice ⟨none, none⟩ [] "2026-10-12" true =
      (some ⟨some ⟨some ["Please select a customer"],
                   some ["Please enter an amount greater than $0."],
                   some ["Please select an invoice status"]⟩,
             some "Missing Fields. Failed to create invoices."⟩, []) ∧
    updateInvoice "inv-1" ⟨none, none⟩ [] true =
      (some ⟨some ⟨some ["Please select a customer"],
                   some ["Please enter an amount greater than $0."],
                   some ["Please select an invoice status"]⟩,
             some "Missing Fields. Failed to update invoice"⟩, []) :=
  (c9_schemas_equal "inv-1" "2026-10-12" ⟨none, none⟩ [] true).2.2
    ⟨some ["Please select a customer"],
     some ["Please enter an amount greater than $0."],
     some ["Please select an invoice status"]⟩ (by decide)

/-- C10: the custom messages are configured only as invalid-type errors:
`errors.customerId` carries "Please select a customer" when the field is
absent (null), while a customerId present as any string never contributes
customerId errors; `errors.status` carries "Please select an invoice
status" when status is absent, while a present status outside the enum gets
the zod default invalid-enum-value message instead of the custom one. -/
theorem c10_custom_messages (id today : String) (prev : State) (fd : FormData) (dbOk : Bool) :
    (getField fd "customerId" = none →
      ∃ e : FieldErrors, resultErrors (createInvoice prev fd today dbOk) = some e ∧
        resultErrors (updateInvoice id prev fd dbOk) = some e ∧
        e.customerId = some ["Please select a customer"]) ∧
    (∀ (s : String) (e : FieldErrors), getField fd "customerId" = some s →
      resultErrors (createInvoice prev fd today dbOk) = some e → e.customerId = none) ∧
    (getField fd "status" = none →
      ∃ e : FieldErrors, resultErrors (createInvoice prev fd today dbOk) = some e ∧
        resultErrors (updateInvoice id prev fd dbOk) = some e ∧
        e.status = some ["Please select an invoice status"]) ∧
    (∀ (s : String) (e : FieldErrors), getField fd "status" = some s → s ≠ "paid" →
      s ≠ "pending" → resultErrors (createInvoice prev fd today dbOk) = some e →
      e.status =
        some ["Invalid enum value. Expected \x27paid\x27 | \x27pending\x27, received \x27"
          ++ s ++ "\x27"]) := by
  refine ⟨?_, ?_, ?_, ?_⟩
  · intro h
    have hc : parseCustomerId (getField fd "customerId") =
        .error ["Please select a customer"] := by
      rw [h]; rfl
    refine ⟨⟨some ["Please select a customer"], errsOf (parseAmount (getField fd "amount")),
        errsOf (parseStatus (getField fd "status"))⟩, ?_, ?_, rfl⟩
    · rw [createInvoice_eq_err (schema_err_of_cid hc)]; rfl
    · rw [updateInvoice_eq_err (schema_err_of_cid hc)]; rfl
  · intro s e hs he
    have h1 := (schema_err_elim (resultErrors_create_err he)).1
    rw [hs] at h1
    exact h1
  · intro h
    have hst : parseStatus (getField fd "status") =
        .error ["Please select an invoice status"] := by
      rw [h]; rfl
    refine ⟨⟨errsOf (parseCustomerId (getField fd "customerId")),
        errsOf (parseAmount (getField fd "amount")),
        some ["Please select an invoice status"]⟩, ?_, ?_, rfl⟩
    · rw [createInvoice_eq_err (schema_err_of_status hst)]; rfl
    · rw [updateInvoice_eq_err (schema_err_of_status hst)]; rfl
  · intro s e hs h1 h2 he
    have h3 := (schema_err_elim (resultErrors_create_err he)).2.2
    rw [hs] at h3
    rw [h3]
    simp [parseStatus, h1, h2, errsOf]

/-- C10 witness: a form with customerId and status absent produces both
custom messages; a present status "done" outside the enum produces the
default invalid-enum-value message. -/
theorem c10_witness :
    (∃ e : FieldErrors,
      resultErrors (createInvoice ⟨none, none⟩ [("amount", "10")] "2026-10-12" true) = some e ∧
      resultErrors (updateInvoice "inv-1" ⟨none, none⟩ [("amount", "10")] true) = some e ∧
      e.customerId = some ["Please select a customer"]) ∧
    (⟨none, none,
      some ["Invalid enum value. Expected \x27paid\x27 | \x27pending\x27, received \x27"
        ++ "done" ++ "\x27"]⟩ : FieldErrors).status =
      some ["Invalid enum value. Expected \x27paid\x27 | \x27pending\x27, received \x27"
        ++ "done" ++ "\x27"] :=
  ⟨(c10_custom_messages "inv-1" "2026-10-12" ⟨none, none⟩ [("amount", "10")] true).1 rfl,
   (c10_custom_messages "inv-1" "2026-10-12" ⟨none, none⟩
        [("customerId", "c9"), ("amount", "10"), ("status", "done")] true).2.2.2 "done"
      ⟨none, none,
       some ["Invalid enum value. Expected \x27paid\x27 | \x27pending\x27, received \x27"
         ++ "done" ++ "\x27"]⟩
      (by decide) (by decide) (by decide) (by decide)⟩

end Invoices
